import Mathlib

/-!
Verification development for the process-signals-dashboard core:
a shallow embedding, over exact rationals, of the signal pipeline in
`src/processing.py`, `src/io_excel.py` and `src/plotting.py`, together
with theorems settling the specification claims about it.

Python floats are modelled by `ℚ` (exact arithmetic; floating-point
rounding is abstracted away), possibly non-finite floats by `Option ℚ`
with `none` standing for `nan`/`inf`/`-inf`, and `ValueError` exceptions
by `Except PyErr`.
-/

set_option maxHeartbeats 1000000

set_option maxRecDepth 4000

/-- The `ValueError` messages raised by the embedded code. -/

inductive PyErr where
  /-- `"window must be >= 1"` in `moving_average`. -/
  | windowMustBeAtLeastOne
  /-- the mode `ValueError` in `moving_average`. -/
  | modeMustBeTrailingOrCentered
  /-- `"Exactly 3 rows required"` in `make_plotly_3d_signals`. -/
  | exactlyThreeRowsRequired
  /-- `"Not enough points for 3D plot"` in `make_plotly_3d_signals`. -/
  | notEnoughPointsFor3D
deriving DecidableEq, Repr

/-- Decidable equality of embedded results. -/

instance {ε α : Type _} [DecidableEq ε] [DecidableEq α] : DecidableEq (Except ε α) := fun x y =>
  match x, y with
  | .ok a, .ok b =>
    match decEq a b with
    | isTrue h => isTrue (congrArg Except.ok h)
    | isFalse h => isFalse (fun hc => h (Except.ok.inj hc))
  | .ok _, .error _ => isFalse (fun hc => Except.noConfusion hc)
  | .error _, .ok _ => isFalse (fun hc => Except.noConfusion hc)
  | .error e, .error f =>
    match decEq e f with
    | isTrue h => isTrue (congrArg Except.error h)
    | isFalse h => isFalse (fun hc => h (Except.error.inj hc))

/-- Model of `np.mean`: arithmetic mean of a list (0 on the empty list, where the
code never takes a mean). -/

def meanQ (xs : List ℚ) : ℚ := xs.sum / xs.length

/-- Model of `np.cumsum`: running partial sums, same length as the input. -/

def cumsum : List ℚ → List ℚ
  | [] => []
  | a :: t => a :: (cumsum t).map (fun s => a + s)

/-- Model of `np.convolve(xs, np.ones(w)/w, mode="valid")`: each output entry is the
sum of a length-`w` slice of `xs` divided by `w`; there are
`xs.length + 1 - w` full slices. -/

def convolveValid (w : Nat) (xs : List ℚ) : List ℚ :=
  (List.range (xs.length + 1 - w)).map (fun k => ((xs.drop k).take w).sum / (w : ℚ))

/-- Embedding of `moving_average` from `src/processing.py`, line for line:
the `window <= 1 or n == 0` early return, the (unreachable) `window < 1`
raise, the degenerate `window > n` branch (cumulative mean for
`"trailing"`, global mean otherwise), and the padded valid-mode
convolution for `1 < window <= n`, with the mode `ValueError` last. -/

def moving_average (x : List ℚ) (window : Int) (mode : String) : Except PyErr (List ℚ) :=
  let n := x.length
  if window ≤ 1 ∨ n = 0 then Except.ok x
  else if window < 1 then Except.error PyErr.windowMustBeAtLeastOne
  else if (n : Int) < window then
    if mode = ("trailing") then
      Except.ok (List.zipWith (fun c k => c / k) (cumsum x)
        ((List.range n).map (fun i => ((i + 1 : Nat) : ℚ))))
    else Except.ok (List.replicate n (meanQ x))
  else
    let w := window.toNat
    if mode = ("trailing") then
      Except.ok (convolveValid w (List.replicate (w - 1) x.headI ++ x))
    else if mode = ("centered") then
      Except.ok (convolveValid w
        (List.replicate ((w - 1) / 2) x.headI ++ x ++
          List.replicate (w - 1 - (w - 1) / 2) x.getLastI))
    else Except.error PyErr.modeMustBeTrailingOrCentered

/-- Spec-side smoother, `trailing` mode: pad the start with `window - 1`
copies of the first element and slide a uniform window whose kernel
weights are all `1/window`. -/

def smooth_spec_trailing (x : List ℚ) (w : Nat) : List ℚ :=
  (List.range x.length).map (fun i =>
    ∑ j ∈ Finset.range w, (List.replicate (w - 1) x.headI ++ x).getD (i + j) 0 * (1 / (w : ℚ)))

/-- Spec-side smoother, `centered` mode: prepend `(window-1)/2` copies of
the first element, append `window - 1 - (window-1)/2` copies of the last
element, and slide the same uniform window. -/

def smooth_spec_centered (x : List ℚ) (w : Nat) : List ℚ :=
  (List.range x.length).map (fun i =>
    ∑ j ∈ Finset.range w,
      (List.replicate ((w - 1) / 2) x.headI ++ x ++
        List.replicate (w - 1 - (w - 1) / 2) x.getLastI).getD (i + j) 0 * (1 / (w : ℚ)))

/-!
### Signal discovery and extraction (`src/io_excel.py`)

Python strings are modelled as `List Char` (their character content, on
which every operation the code uses computes by kernel reduction), and
column identifiers as `Option (List Char)` — `none` for a non-string
identifier, which discovery ignores.
-/

/-- Model of the Python `str.strip()` method: remove leading and trailing whitespace. -/

def pyStrip (s : List Char) : List Char :=
  ((s.dropWhile Char.isWhitespace).reverse.dropWhile Char.isWhitespace).reverse

/-- The `Signal` dataclass: a name and its two column identifiers. -/

structure Signal where
  name : List Char
  time_col : List Char
  value_col : List Char
deriving DecidableEq, Repr

/-- Embedding of `discover_signals` from `src/io_excel.py`: keep string columns, take
those starting with the `"Time - "` prefix in order, strip the remainder
into a name (skipping empty names), list the value-column candidates
(any other string column ending in `" - <name>"`, in original column
order), skip the time column when there are none, else pair it with the
first candidate. -/

def discover_signals (cols : List (Option (List Char))) : List Signal :=
  let scols := cols.filterMap id
  let time_cols := scols.filter (fun c => ("Time - ").toList.isPrefixOf c)
  time_cols.filterMap (fun tcol =>
    let name := pyStrip (tcol.drop 7)
    if name.isEmpty then none
    else
      match scols.filter (fun c => (c != tcol) && ((" - ").toList ++ name).isSuffixOf c) with
      | [] => none
      | v :: _ => some ⟨name, tcol, v⟩)

/-- Spec-side discovery: one `Signal` per string column starting with
`"Time - "` whose stripped remainder is nonempty, paired with the FIRST
string column (original order) that is not the time column itself and
ends with `" - <name>"`; time columns without a candidate are skipped. -/

def discover_spec (cols : List (Option (List Char))) : List Signal :=
  let scols := cols.filterMap id
  (scols.filter (fun c => ("Time - ").toList.isPrefixOf c)).filterMap (fun tcol =>
    let name := pyStrip (tcol.drop 7)
    if name.isEmpty then none
    else
      (scols.find? (fun c => (c != tcol) && ((" - ").toList ++ name).isSuffixOf c)).map
        (fun v => ⟨name, tcol, v⟩))

/-- A table cell as seen through `pd.to_numeric(..., errors="coerce")`:
either an entry that coerces to a (finite) number, or one the coercion
turns into `NaN` (missing, or non-numeric text). -/

inductive Cell where
  | num (q : ℚ)
  | bad
deriving DecidableEq, Repr

/-- The numeric view of a cell; `none` is the pandas `NaN` (`notna` false). -/

def toNum : Cell → Option ℚ
  | Cell.num q => some q
  | Cell.bad => none

/-- Boolean-mask selection `series[mask]` followed by
`reset_index(drop=True)`: keep the entries at true mask positions, in
order, densely reindexed. -/

def applyMask : List (Option ℚ) → List Bool → List ℚ
  | [], _ => []
  | _ :: _, [] => []
  | a :: t, m :: ms => if m then a.getD 0 :: applyMask t ms else applyMask t ms

/-- Embedding of `extract_signal` from `src/io_excel.py`: coerce both columns to
numeric, build the `t.notna() & y.notna()` mask, apply it to both
columns and reindex. -/

def extract_signal (t y : List Cell) : List ℚ × List ℚ :=
  let tn := t.map toNum
  let yn := y.map toNum
  let mask := List.zipWith (fun a b => a.isSome && b.isSome) tn yn
  (applyMask tn mask, applyMask yn mask)

/-- Spec-side extraction: exactly the rows where both entries coerce to a
number, in their original relative order. -/

def valid_pairs (t y : List Cell) : List (ℚ × ℚ) :=
  (t.zip y).filterMap (fun p =>
    match toNum p.1, toNum p.2 with
    | some a, some b => some (a, b)
    | _, _ => none)

/-!
### 3D view preparation (`src/plotting.py`)

`make_plotly_3d_signals` is modelled up to the prepared data it feeds the
Plotly figure: the three axis sequences, the color sequence, and the
colorbar title (`ViewTriple`); marker size, colorscale, and layout are
presentation-only.
-/

/-- The `SeriesData` dataclass from `src/models.py`. -/

structure SeriesData where
  name : String
  t : List ℚ
  y : List ℚ
  y_ma : List ℚ
deriving DecidableEq, Repr

/-- The data of the prepared 3D view: axis sequences, color sequence and
color label. -/

structure ViewTriple where
  x : List ℚ
  y : List ℚ
  z : List ℚ
  color : List ℚ
  colorLabel : String
deriving DecidableEq, Repr

/-- Model of `np.linspace(0, n - 1, m).astype(int)`: `m` evenly spaced positions
from `0` to `n - 1` inclusive, each TRUNCATED toward zero (for these
non-negative positions, the floor `k * (n - 1) / (m - 1)` in integer
division); for `m = 1` numpy returns the single position `0`. -/

def downsampleIdx (n m : Nat) : List Nat :=
  (List.range m).map (fun k => k * (n - 1) / (m - 1))

/-- The `color_by` dispatch at the end of `make_plotly_3d_signals`: one of
the six (already trimmed/downsampled) sequences, or the sample index
`np.arange(n)` for any unrecognized selector. -/

def pick_color (color_by : String) (x y z t1 t2 t3 : List ℚ) (n : Nat) : List ℚ × String :=
  if color_by = ("Row 1 time") then (t1, ("Row 1 time"))
  else if color_by = ("Row 2 time") then (t2, ("Row 2 time"))
  else if color_by = ("Row 3 time") then (t3, ("Row 3 time"))
  else if color_by = ("Row 1 value") then (x, ("Row 1 value"))
  else if color_by = ("Row 2 value") then (y, ("Row 2 value"))
  else if color_by = ("Row 3 value") then (z, ("Row 3 value"))
  else (List.map (fun (i : Nat) => (i : ℚ)) (List.range n), ("Sample index"))

/-- The aligned length `n = min(len(x), len(y), len(z), len(t1), len(t2),
len(t3))` computed by `make_plotly_3d_signals` before trimming. -/

def aligned_len (s1 s2 s3 : SeriesData) (use_ma : Bool) : Nat :=
  min (min (min (min (min (if use_ma then s1.y_ma else s1.y).length
    (if use_ma then s2.y_ma else s2.y).length)
    (if use_ma then s3.y_ma else s3.y).length) s1.t.length) s2.t.length) s3.t.length

/-- Embedding of `make_plotly_3d_signals` from `src/plotting.py`: require exactly 3
series, pick raw or smoothed values, trim all six sequences to the
minimum length `n`, fail when `n < 5`, downsample via
`np.linspace(0, n-1, max_points).astype(int)` when `max_points` is
truthy and `n > max_points`, then derive the color sequence. -/

def make_plotly_3d_signals (series : List SeriesData) (use_ma : Bool) (max_points : Nat)
    (color_by : String) : Except PyErr ViewTriple :=
  match series with
  | [s1, s2, s3] =>
    let x0 := if use_ma then s1.y_ma else s1.y
    let y0 := if use_ma then s2.y_ma else s2.y
    let z0 := if use_ma then s3.y_ma else s3.y
    let n := aligned_len s1 s2 s3 use_ma
    if n < 5 then Except.error PyErr.notEnoughPointsFor3D
    else
      let x1 := x0.take n
      let y1 := y0.take n
      let z1 := z0.take n
      let t1 := s1.t.take n
      let t2 := s2.t.take n
      let t3 := s3.t.take n
      if max_points ≠ 0 ∧ max_points < n then
        let idx := downsampleIdx n max_points
        let x2 := idx.map (fun i => x1.getD i 0)
        let y2 := idx.map (fun i => y1.getD i 0)
        let z2 := idx.map (fun i => z1.getD i 0)
        let u1 := idx.map (fun i => t1.getD i 0)
        let u2 := idx.map (fun i => t2.getD i 0)
        let u3 := idx.map (fun i => t3.getD i 0)
        let c := pick_color color_by x2 y2 z2 u1 u2 u3 max_points
        Except.ok ⟨x2, y2, z2, c.1, c.2⟩
      else
        let c := pick_color color_by x1 y1 z1 t1 t2 t3 n
        Except.ok ⟨x1, y1, z1, c.1, c.2⟩
  | _ => Except.error PyErr.exactlyThreeRowsRequired

/-- The reading of the downsampling rule asserted by the claim: positions
`k * (n - 1) / (m - 1)` rounded to the NEAREST integer index (ties
upward), computed in integer arithmetic as
`(2 * k * (n - 1) + (m - 1)) / (2 * (m - 1))` = `⌊position + 1/2⌋`. -/

def roundIdxSpec (n m : Nat) : List Nat :=
  (List.range m).map (fun k => (2 * (k * (n - 1)) + (m - 1)) / (2 * (m - 1)))

/-- A concrete series triple with aligned length 8 (values spaced by 10
so floor- and round-selected entries differ visibly). -/

def sample_series_1 : SeriesData :=
  ⟨("r1"), [0, 1, 2, 3, 4, 5, 6, 7], [0, 10, 20, 30, 40, 50, 60, 70], []⟩

/-- Second sample series for the concrete 3D instances. -/

def sample_series_2 : SeriesData :=
  ⟨("r2"), [0, 1, 2, 3, 4, 5, 6, 7], [1, 2, 3, 4, 5, 6, 7, 8], []⟩

/-- Third sample series for the concrete 3D instances. -/

def sample_series_3 : SeriesData :=
  ⟨("r3"), [0, 1, 2, 3, 4, 5, 6, 7], [2, 3, 4, 5, 6, 7, 8, 9], []⟩

/-!
### Spectral estimation (`src/processing.py`, `fft_magnitude`)

Time samples may be non-finite floats, modelled as `Option ℚ` with
`none` for `nan`/`inf`/`-inf`; a difference is finite exactly when both
operands are (exact arithmetic cannot overflow). Signal samples come
from the cleaned `NumericSeries` of the extractor, hence are plain `ℚ`. The
DFT magnitudes live in `ℝ` (they involve `exp` and absolute values), so
the spectrum is the one noncomputable corner of the development.
-/

/-- Model of `np.diff(time)`: consecutive differences `time[i+1] - time[i]`,
non-finite as soon as an operand is. -/

def diffs (time : List (Option ℚ)) : List (Option ℚ) :=
  List.zipWith (fun a b => Option.map₂ (fun u v => v - u) a b) time time.tail

/-- Model of `dt[np.isfinite(dt)]`: the finite consecutive differences. -/

def finiteDiffs (time : List (Option ℚ)) : List ℚ :=
  (diffs time).filterMap id

/-- Insert into a sorted list (ascending). -/

def insertSorted (a : ℚ) : List ℚ → List ℚ
  | [] => [a]
  | b :: t => if a ≤ b then a :: b :: t else b :: insertSorted a t

/-- Insertion sort, ascending. -/

def sortQ : List ℚ → List ℚ
  | [] => []
  | a :: t => insertSorted a (sortQ t)

/-- Model of `np.median`: the middle element of the sorted data for odd length,
the mean of the two middle elements for even length. -/

def medianQ (xs : List ℚ) : ℚ :=
  if xs.length % 2 = 1 then (sortQ xs).getD (xs.length / 2) 0
  else ((sortQ xs).getD (xs.length / 2 - 1) 0 + (sortQ xs).getD (xs.length / 2) 0) / 2

/-- The `k`-th DFT coefficient of `x` (`n = x.length`):
`∑_j x_j · e^(-2πi·jk/n)`; `np.fft.rfft` returns coefficients
`k = 0 .. n/2`. -/

noncomputable def dftCoeff (x : List ℚ) (k : Nat) : ℂ :=
  ∑ j ∈ Finset.range x.length,
    (x.getD j 0 : ℂ) *
      Complex.exp (-2 * Real.pi * Complex.I * (j : ℂ) * (k : ℂ) / (x.length : ℂ))

/-- The `Spectrum` record: one-sided frequency axis and magnitudes. -/

structure Spectrum where
  freq : List ℚ
  mag : List ℝ

/-- Embedding of `fft_magnitude` from `src/processing.py`: empty spectrum when either
input has fewer than 4 samples, when no consecutive time difference is
finite, or when the median sampling interval is non-positive; otherwise
the mean-detrended one-sided DFT, frequencies `k / (n·dt)`
(`np.fft.rfftfreq(n, d=dt_med)`), magnitudes `|rfft(x)| / n`. -/

noncomputable def fft_magnitude (time : List (Option ℚ)) (signal : List ℚ) : Spectrum :=
  if time.length < 4 ∨ signal.length < 4 then ⟨[], []⟩
  else
    let dt := finiteDiffs time
    if dt.length = 0 then ⟨[], []⟩
    else
      let dt_med := medianQ dt
      if dt_med ≤ 0 then ⟨[], []⟩
      else
        let x := signal.map (fun v => v - meanQ signal)
        let n := signal.length
        ⟨List.map (fun (k : Nat) => (k : ℚ) / ((n : ℚ) * dt_med)) (List.range (n / 2 + 1)),
          List.map (fun (k : Nat) => Complex.abs (dftCoeff x k) / (n : ℝ))
            (List.range (n / 2 + 1))⟩

example : moving_average [(1 : ℚ), 2, 3, 4] 2 ("trailing") =
    Except.ok [1, 3/2, 5/2, 7/2] := by
  simp [moving_average, convolveValid, List.range_succ]
  norm_num

example : moving_average [(1 : ℚ), 2, 3, 4] 3 ("centered") =
    Except.ok [4/3, 2, 3, 11/3] := by
  simp [moving_average, convolveValid, List.range_succ, List.getLastI, List.getLast]
  norm_num

example : moving_average [(1 : ℚ), 2, 3] 5 ("trailing") =
    Except.ok [1, 3/2, 2] := by
  simp [moving_average, cumsum, List.range_succ]
  norm_num

example : moving_average [(1 : ℚ), 2, 3] 5 ("centered") = Except.ok [2, 2, 2] := by
  simp [moving_average, meanQ, List.range_succ]
  norm_num

example : moving_average [(1 : ℚ), 2] 0 ("trailing") = Except.ok [1, 2] := by
  simp [moving_average]

example : smooth_spec_trailing [(1 : ℚ), 2, 3, 4] 2 = [1, 3/2, 5/2, 7/2] := by
  simp [smooth_spec_trailing, List.range_succ, Finset.sum_range_succ]
  norm_num

/-! ### List summation lemmas relating slice sums to indexed sums -/

theorem sum_take_getD (xs : List ℚ) (w : Nat) :
    (xs.take w).sum = ∑ j ∈ Finset.range w, xs.getD j 0 := by
  induction xs generalizing w with
  | nil => simp [List.getD]
  | cons a t ih =>
    cases w with
    | zero => simp
    | succ w =>
      simp only [List.take_succ_cons, List.sum_cons, ih, Finset.sum_range_succ',
        List.getD_cons_succ, List.getD_cons_zero]
      ring

theorem getD_drop_qq (xs : List ℚ) (k j : Nat) :
    (xs.drop k).getD j 0 = xs.getD (k + j) 0 := by
  induction k generalizing xs with
  | zero => simp
  | succ k ih =>
    cases xs with
    | nil => simp [List.getD]
    | cons a t =>
      have hkj : k + 1 + j = (k + j) + 1 := by omega
      simp [hkj, List.getD_cons_succ, ih]

theorem sum_drop_take_getD (xs : List ℚ) (k w : Nat) :
    ((xs.drop k).take w).sum = ∑ j ∈ Finset.range w, xs.getD (k + j) 0 := by
  rw [sum_take_getD]
  exact Finset.sum_congr rfl (fun j _ => getD_drop_qq xs k j)

/-- Each valid-mode convolution entry is the kernel-weighted window sum. -/

theorem convolveValid_spec (w : Nat) (pad : List ℚ) :
    convolveValid w pad =
      (List.range (pad.length + 1 - w)).map
        (fun i => ∑ j ∈ Finset.range w, pad.getD (i + j) 0 * (1 / (w : ℚ))) := by
  unfold convolveValid
  refine List.map_congr_left (fun k _ => ?_)
  rw [sum_drop_take_getD, div_eq_mul_one_div, Finset.sum_mul]

/-- The model of `np.cumsum` is the list of prefix sums. -/

theorem cumsum_eq_prefix_sums (xs : List ℚ) :
    cumsum xs = (List.range xs.length).map (fun i => (xs.take (i + 1)).sum) := by
  induction xs with
  | nil => simp [cumsum]
  | cons a t ih =>
    simp only [cumsum, ih, List.length_cons, List.range_succ_eq_map, List.map_cons,
      List.map_map, List.cons.injEq]
    refine ⟨by simp, List.map_congr_left (fun i _ => ?_)⟩
    simp [Function.comp, List.take_succ_cons]

theorem zipWith_div_map_range (f g : Nat → ℚ) (l : List Nat) :
    List.zipWith (fun c k => c / k) (l.map f) (l.map g) = l.map (fun i => f i / g i) := by
  induction l with
  | nil => rfl
  | cons a t ih => simp [ih]

theorem getD_map_range (f : Nat → ℚ) (n i : Nat) (h : i < n) :
    ((List.range n).map f).getD i 0 = f i := by
  rw [List.getD_eq_getElem?_getD]
  simp [List.getElem?_map, List.getElem?_range h]

/-!
### Claim theorems for the smoother

C1, C3, C4 and C10 are settled against `moving_average`.
-/

/-- C1: with `window = 0` (and any `window < 1`) `moving_average` does NOT
fail: the `window <= 1` early return fires first, so the input comes back
unchanged on both modes and no `ValueError` is raised — the `window < 1`
raise in the source is unreachable. -/

theorem moving_average_window_zero_silent :
    moving_average [(1 : ℚ), 2] 0 ("trailing") = Except.ok [1, 2] ∧
    moving_average [(1 : ℚ), 2] 0 ("centered") = Except.ok [1, 2] ∧
    (∀ e : PyErr, moving_average [(1 : ℚ), 2] 0 ("trailing") ≠ Except.error e) ∧
    (∀ e : PyErr, moving_average [(1 : ℚ), 2] 0 ("centered") ≠ Except.error e) := by
  refine ⟨by simp [moving_average], by simp [moving_average], ?_, ?_⟩ <;>
    intro e <;> simp [moving_average]

/-- C3: for `1 < window ≤ len x`, the smoother returns, in each mode,
exactly the valid-mode uniform convolution (kernel weights all
`1/window`) of the correspondingly edge-padded input, and the output
length equals the input length. -/

theorem moving_average_eq_padded_convolution (x : List ℚ) (window : Int)
    (h1 : 1 < window) (h2 : window ≤ (x.length : Int)) :
    moving_average x window ("trailing") = Except.ok (smooth_spec_trailing x window.toNat) ∧
    moving_average x window ("centered") = Except.ok (smooth_spec_centered x window.toNat) ∧
    (smooth_spec_trailing x window.toNat).length = x.length ∧
    (smooth_spec_centered x window.toNat).length = x.length := by
  have hn0 : x.length ≠ 0 := by omega
  have hc1 : ¬(window ≤ 1 ∨ x.length = 0) := by push_neg; exact ⟨by omega, hn0⟩
  have hc2 : ¬ window < 1 := by omega
  have hc3 : ¬ ((x.length : Int) < window) := by omega
  have hlen1 : (List.replicate (window.toNat - 1) x.headI ++ x).length + 1 - window.toNat
      = x.length := by
    simp only [List.length_append, List.length_replicate]
    omega
  have hlen2 : (List.replicate ((window.toNat - 1) / 2) x.headI ++ x ++
      List.replicate (window.toNat - 1 - (window.toNat - 1) / 2) x.getLastI).length + 1
        - window.toNat = x.length := by
    simp only [List.length_append, List.length_replicate]
    omega
  refine ⟨?_, ?_, by simp [smooth_spec_trailing], by simp [smooth_spec_centered]⟩
  · simp only [moving_average, if_neg hc1, if_neg hc2, if_neg hc3, if_pos rfl]
    rw [convolveValid_spec, hlen1]
    rfl
  · simp only [moving_average, if_neg hc1, if_neg hc2, if_neg hc3,
      if_neg (by decide : ¬("centered" : String) = ("trailing")), if_pos rfl]
    rw [convolveValid_spec, hlen2]
    rfl

/-- C4: for nonempty `x` and `window > len x`, `trailing` mode yields the
running (cumulative) mean — entry `i` is the mean of `x[0..i]` — and
`centered` mode yields the constant global-mean list; both outputs have
the length of the input. -/

theorem moving_average_window_gt_len (x : List ℚ) (window : Int)
    (hx : x ≠ []) (hw : (x.length : Int) < window) :
    (∃ y, moving_average x window ("trailing") = Except.ok y ∧ y.length = x.length ∧
      ∀ i, i < x.length → y.getD i 0 = meanQ (x.take (i + 1))) ∧
    moving_average x window ("centered") = Except.ok (List.replicate x.length (meanQ x)) ∧
    (List.replicate x.length (meanQ x)).length = x.length := by
  have hn0 : x.length ≠ 0 := by simpa using hx
  have hc1 : ¬(window ≤ 1 ∨ x.length = 0) := by push_neg; exact ⟨by omega, hn0⟩
  have hc2 : ¬ window < 1 := by omega
  refine ⟨⟨(List.range x.length).map (fun i => (x.take (i + 1)).sum / ((i + 1 : Nat) : ℚ)),
    ?_, by simp, ?_⟩, ?_, by simp⟩
  · simp only [moving_average, if_neg hc1, if_neg hc2, if_pos hw, if_pos rfl, if_true]
    rw [cumsum_eq_prefix_sums, zipWith_div_map_range]
  · intro i hi
    rw [getD_map_range _ _ _ hi]
    have hmin : min (i + 1) x.length = i + 1 := by omega
    rw [meanQ, List.length_take, hmin]
  · simp only [moving_average, if_neg hc1, if_neg hc2, if_pos hw,
      if_neg (by decide : ¬("centered" : String) = ("trailing"))]

/-- C10: an unrecognized mode string is rejected only on the
non-degenerate path: with `window ≤ 1` the input comes back unchanged,
with `window > len x` the constant global-mean list is returned (the
`centered` degenerate answer), and only with `1 < window ≤ len x` does
`moving_average` raise the mode `ValueError`. -/

theorem moving_average_invalid_mode (x : List ℚ) (mode : String) (w1 w2 w3 : Int)
    (hm1 : mode ≠ ("trailing")) (hm2 : mode ≠ ("centered")) (hx : x ≠ [])
    (h1 : w1 ≤ 1) (h2 : (x.length : Int) < w2) (h3 : 1 < w3) (h4 : w3 ≤ (x.length : Int)) :
    moving_average x w1 mode = Except.ok x ∧
    moving_average x w2 mode = Except.ok (List.replicate x.length (meanQ x)) ∧
    moving_average x w3 mode = Except.error PyErr.modeMustBeTrailingOrCentered := by
  have hn0 : x.length ≠ 0 := by simpa using hx
  refine ⟨?_, ?_, ?_⟩
  · simp only [moving_average, if_pos (Or.inl h1)]
  · have hc1 : ¬(w2 ≤ 1 ∨ x.length = 0) := by push_neg; exact ⟨by omega, hn0⟩
    simp only [moving_average, if_neg hc1, if_neg (by omega : ¬ w2 < 1), if_pos h2,
      if_neg hm1]
  · have hc1 : ¬(w3 ≤ 1 ∨ x.length = 0) := by push_neg; exact ⟨by omega, hn0⟩
    simp only [moving_average, if_neg hc1, if_neg (by omega : ¬ w3 < 1),
      if_neg (by omega : ¬ ((x.length : Int) < w3)), if_neg hm1, if_neg hm2]

/-- Concrete instance of C3 at `x = [1,2,3,4]`, `window = 2`. -/

theorem moving_average_eq_padded_convolution_witness :
    ((1 : Int) < 2 ∧ (2 : Int) ≤ (([(1 : ℚ), 2, 3, 4] : List ℚ).length : Int)) ∧
    (moving_average [(1 : ℚ), 2, 3, 4] 2 ("trailing") =
        Except.ok (smooth_spec_trailing [(1 : ℚ), 2, 3, 4] (2 : Int).toNat) ∧
      moving_average [(1 : ℚ), 2, 3, 4] 2 ("centered") =
        Except.ok (smooth_spec_centered [(1 : ℚ), 2, 3, 4] (2 : Int).toNat) ∧
      (smooth_spec_trailing [(1 : ℚ), 2, 3, 4] (2 : Int).toNat).length =
        ([(1 : ℚ), 2, 3, 4] : List ℚ).length ∧
      (smooth_spec_centered [(1 : ℚ), 2, 3, 4] (2 : Int).toNat).length =
        ([(1 : ℚ), 2, 3, 4] : List ℚ).length) :=
  ⟨⟨by decide, by decide⟩,
    moving_average_eq_padded_convolution [(1 : ℚ), 2, 3, 4] 2 (by decide) (by decide)⟩

/-- Concrete instance of C4 at `x = [1,2,3]`, `window = 5`. -/

theorem moving_average_window_gt_len_witness :
    (([(1 : ℚ), 2, 3] : List ℚ) ≠ [] ∧ (([(1 : ℚ), 2, 3] : List ℚ).length : Int) < 5) ∧
    ((∃ y, moving_average [(1 : ℚ), 2, 3] 5 ("trailing") = Except.ok y ∧
        y.length = ([(1 : ℚ), 2, 3] : List ℚ).length ∧
        ∀ i, i < ([(1 : ℚ), 2, 3] : List ℚ).length →
          y.getD i 0 = meanQ (([(1 : ℚ), 2, 3] : List ℚ).take (i + 1))) ∧
      moving_average [(1 : ℚ), 2, 3] 5 ("centered") =
        Except.ok (List.replicate ([(1 : ℚ), 2, 3] : List ℚ).length
          (meanQ [(1 : ℚ), 2, 3])) ∧
      (List.replicate ([(1 : ℚ), 2, 3] : List ℚ).length (meanQ [(1 : ℚ), 2, 3])).length =
        ([(1 : ℚ), 2, 3] : List ℚ).length) :=
  ⟨⟨by simp, by decide⟩,
    moving_average_window_gt_len [(1 : ℚ), 2, 3] 5 (by simp) (by decide)⟩

/-- Concrete instance of C10 at `mode = "bogus"`, `x = [1,2,3]`,
with `window` 1 (trivial), 4 (degenerate) and 2 (non-degenerate). -/

theorem moving_average_invalid_mode_witness :
    (("bogus" : String) ≠ ("trailing") ∧ ("bogus" : String) ≠ ("centered") ∧
      ([(1 : ℚ), 2, 3] : List ℚ) ≠ [] ∧ (1 : Int) ≤ 1 ∧
      (([(1 : ℚ), 2, 3] : List ℚ).length : Int) < 4 ∧ (1 : Int) < 2 ∧
      (2 : Int) ≤ (([(1 : ℚ), 2, 3] : List ℚ).length : Int)) ∧
    (moving_average [(1 : ℚ), 2, 3] 1 ("bogus") = Except.ok [(1 : ℚ), 2, 3] ∧
      moving_average [(1 : ℚ), 2, 3] 4 ("bogus") =
        Except.ok (List.replicate ([(1 : ℚ), 2, 3] : List ℚ).length (meanQ [(1 : ℚ), 2, 3])) ∧
      moving_average [(1 : ℚ), 2, 3] 2 ("bogus") =
        Except.error PyErr.modeMustBeTrailingOrCentered) :=
  ⟨⟨by decide, by decide, by simp, by decide, by decide, by decide, by decide⟩,
    moving_average_invalid_mode [(1 : ℚ), 2, 3] ("bogus") 1 4 2
      (by decide) (by decide) (by simp) (by decide) (by decide) (by decide) (by decide)⟩

/-- C7: discovery returns exactly one `Signal` per string column starting
with `"Time - "` whose stripped remainder is nonempty and has at least
one candidate, the value column being the first string column in original
order other than the time column that ends with `" - <name>"`, in
time-column order; and on the columns
`{"Time - A", "X - A", "Time - B - B", "Y - B - B"}` it yields exactly
the signals `A` and `B - B` with their paired columns, in that order. -/

theorem discover_signals_eq_spec (cols : List (Option (List Char))) :
    discover_signals cols = discover_spec cols ∧
    discover_signals [some ("Time - A").toList, some ("X - A").toList,
        some ("Time - B - B").toList, some ("Y - B - B").toList] =
      [⟨("A").toList, ("Time - A").toList, ("X - A").toList⟩,
        ⟨("B - B").toList, ("Time - B - B").toList, ("Y - B - B").toList⟩] := by
  constructor
  · show List.filterMap
        (fun tcol =>
          if (pyStrip (tcol.drop 7)).isEmpty then none
          else
            match (cols.filterMap id).filter
                (fun c => (c != tcol) &&
                  ((" - ").toList ++ pyStrip (tcol.drop 7)).isSuffixOf c) with
            | [] => none
            | v :: _ => some (⟨pyStrip (tcol.drop 7), tcol, v⟩ : Signal))
        ((cols.filterMap id).filter (fun c => ("Time - ").toList.isPrefixOf c)) =
      List.filterMap
        (fun tcol =>
          if (pyStrip (tcol.drop 7)).isEmpty then none
          else
            ((cols.filterMap id).find?
                (fun c => (c != tcol) &&
                  ((" - ").toList ++ pyStrip (tcol.drop 7)).isSuffixOf c)).map
              (fun v => (⟨pyStrip (tcol.drop 7), tcol, v⟩ : Signal)))
        ((cols.filterMap id).filter (fun c => ("Time - ").toList.isPrefixOf c))
    congr 1
    funext tcol
    by_cases h : (pyStrip (List.drop 7 tcol)).isEmpty = true
    · simp only [if_pos h]
    · simp only [if_neg h]
      rw [← List.filter_head?]
      cases List.filter
          (fun c => (c != tcol) && ((" - ").toList ++ pyStrip (List.drop 7 tcol)).isSuffixOf c)
          (List.filterMap id cols) with
      | nil => rfl
      | cons v rest => rfl
  · decide

theorem applyMask_nil_mask (l : List (Option ℚ)) : applyMask l [] = [] := by
  cases l <;> rfl

theorem applyMask_fst (t y : List Cell) :
    applyMask (t.map toNum)
      (List.zipWith (fun a b => a.isSome && b.isSome) (t.map toNum) (y.map toNum)) =
      (valid_pairs t y).map Prod.fst := by
  induction t generalizing y with
  | nil => simp [applyMask, applyMask_nil_mask, valid_pairs]
  | cons a t ih =>
    cases y with
    | nil => simp [applyMask_nil_mask, valid_pairs]
    | cons b y =>
      cases a <;> cases b <;>
        simp [applyMask, valid_pairs, toNum, List.zip_cons_cons, List.filterMap_cons, ih,
          valid_pairs] <;>
        simpa [valid_pairs] using ih y

theorem applyMask_snd (t y : List Cell) :
    applyMask (y.map toNum)
      (List.zipWith (fun a b => a.isSome && b.isSome) (t.map toNum) (y.map toNum)) =
      (valid_pairs t y).map Prod.snd := by
  induction t generalizing y with
  | nil => simp [applyMask, applyMask_nil_mask, valid_pairs]
  | cons a t ih =>
    cases y with
    | nil => simp [applyMask_nil_mask, valid_pairs]
    | cons b y =>
      cases a <;> cases b <;>
        simp [applyMask, valid_pairs, toNum, List.zip_cons_cons, List.filterMap_cons, ih,
          valid_pairs] <;>
        simpa [valid_pairs] using ih y

/-- C8: extraction returns a pair of equal-length sequences listing
exactly the rows where both the time and the value entry coerce to a
number, in original relative order and densely reindexed; the output
length is the number of valid rows, and zero valid rows yield the empty,
non-error result. -/

theorem extract_signal_valid_rows (t y : List Cell) (_h : t.length = y.length) :
    (extract_signal t y).1 = (valid_pairs t y).map Prod.fst ∧
    (extract_signal t y).2 = (valid_pairs t y).map Prod.snd ∧
    (extract_signal t y).1.length = (valid_pairs t y).length ∧
    (extract_signal t y).2.length = (valid_pairs t y).length ∧
    (valid_pairs t y = [] → extract_signal t y = ([], [])) := by
  have e1 : (extract_signal t y).1 = (valid_pairs t y).map Prod.fst := applyMask_fst t y
  have e2 : (extract_signal t y).2 = (valid_pairs t y).map Prod.snd := applyMask_snd t y
  refine ⟨e1, e2, by rw [e1, List.length_map], by rw [e2, List.length_map], fun hv => ?_⟩
  have hp : extract_signal t y = ((extract_signal t y).1, (extract_signal t y).2) := rfl
  rw [hp, e1, e2, hv]
  simp

/-- Concrete instance of C8: a 4-row table whose value column is
non-numeric exactly at row 2 extracts to length-3 aligned sequences. -/

theorem extract_signal_valid_rows_witness :
    ([Cell.num 0, Cell.num 1, Cell.num 2, Cell.num 3].length =
        [Cell.num 10, Cell.num 11, Cell.bad, Cell.num 13].length) ∧
    ((extract_signal [Cell.num 0, Cell.num 1, Cell.num 2, Cell.num 3]
          [Cell.num 10, Cell.num 11, Cell.bad, Cell.num 13]).1 =
        (valid_pairs [Cell.num 0, Cell.num 1, Cell.num 2, Cell.num 3]
          [Cell.num 10, Cell.num 11, Cell.bad, Cell.num 13]).map Prod.fst ∧
      (extract_signal [Cell.num 0, Cell.num 1, Cell.num 2, Cell.num 3]
          [Cell.num 10, Cell.num 11, Cell.bad, Cell.num 13]).2 =
        (valid_pairs [Cell.num 0, Cell.num 1, Cell.num 2, Cell.num 3]
          [Cell.num 10, Cell.num 11, Cell.bad, Cell.num 13]).map Prod.snd ∧
      (extract_signal [Cell.num 0, Cell.num 1, Cell.num 2, Cell.num 3]
          [Cell.num 10, Cell.num 11, Cell.bad, Cell.num 13]).1.length =
        (valid_pairs [Cell.num 0, Cell.num 1, Cell.num 2, Cell.num 3]
          [Cell.num 10, Cell.num 11, Cell.bad, Cell.num 13]).length ∧
      (extract_signal [Cell.num 0, Cell.num 1, Cell.num 2, Cell.num 3]
          [Cell.num 10, Cell.num 11, Cell.bad, Cell.num 13]).2.length =
        (valid_pairs [Cell.num 0, Cell.num 1, Cell.num 2, Cell.num 3]
          [Cell.num 10, Cell.num 11, Cell.bad, Cell.num 13]).length ∧
      (valid_pairs [Cell.num 0, Cell.num 1, Cell.num 2, Cell.num 3]
          [Cell.num 10, Cell.num 11, Cell.bad, Cell.num 13] = [] →
        extract_signal [Cell.num 0, Cell.num 1, Cell.num 2, Cell.num 3]
          [Cell.num 10, Cell.num 11, Cell.bad, Cell.num 13] = ([], []))) ∧
    extract_signal [Cell.num 0, Cell.num 1, Cell.num 2, Cell.num 3]
        [Cell.num 10, Cell.num 11, Cell.bad, Cell.num 13] = ([0, 1, 3], [10, 11, 13]) :=
  ⟨rfl,
    extract_signal_valid_rows [Cell.num 0, Cell.num 1, Cell.num 2, Cell.num 3]
      [Cell.num 10, Cell.num 11, Cell.bad, Cell.num 13] rfl,
    by simp [extract_signal, applyMask, toNum]⟩

example :
    make_plotly_3d_signals
      [⟨("r1"), [0, 1, 2, 3, 4, 5, 6, 7], [0, 10, 20, 30, 40, 50, 60, 70], []⟩,
        ⟨("r2"), [0, 1, 2, 3, 4, 5, 6, 7], [1, 2, 3, 4, 5, 6, 7, 8], []⟩,
        ⟨("r3"), [0, 1, 2, 3, 4, 5, 6, 7], [2, 3, 4, 5, 6, 7, 8, 9], []⟩]
      false 5 ("Row 1 time") =
    Except.ok ⟨[0, 10, 30, 50, 70], [1, 2, 4, 6, 8], [2, 3, 5, 7, 9],
      [0, 1, 3, 5, 7], ("Row 1 time")⟩ := by
  decide

theorem exists_ok_of_ite (c : Prop) [Decidable c] (a b : ViewTriple) :
    ∃ v, (if c then Except.ok a else Except.ok b) = (Except.ok v : Except PyErr ViewTriple) := by
  by_cases h : c
  · exact ⟨a, if_pos h⟩
  · exact ⟨b, if_neg h⟩

/-- C9: on three selected series, view preparation fails with the
`"Not enough points for 3D plot"` error exactly when the aligned length
`n` — the minimum over the three value and three time sequences — is
below 5; the failure is independent of `max_points` (no downsampling
happens) and produces no `ViewTriple`, while `n ≥ 5` always produces
one. -/

theorem make_plotly_3d_insufficient_iff (s1 s2 s3 : SeriesData) (use_ma : Bool)
    (max_points : Nat) (color_by : String) :
    (aligned_len s1 s2 s3 use_ma < 5 ∧
      make_plotly_3d_signals [s1, s2, s3] use_ma max_points color_by =
        Except.error PyErr.notEnoughPointsFor3D) ∨
    (5 ≤ aligned_len s1 s2 s3 use_ma ∧
      ∃ v, make_plotly_3d_signals [s1, s2, s3] use_ma max_points color_by =
        Except.ok v) := by
  by_cases h : aligned_len s1 s2 s3 use_ma < 5
  · refine Or.inl ⟨h, ?_⟩
    simp only [make_plotly_3d_signals]
    rw [if_pos h]
  · refine Or.inr ⟨by omega, ?_⟩
    simp only [make_plotly_3d_signals]
    rw [if_neg h]
    exact exists_ok_of_ite _ _ _

theorem getD_map_range' {α : Type} (f : Nat → α) (d : α) (n i : Nat) (h : i < n) :
    ((List.range n).map f).getD i d = f i := by
  rw [List.getD_eq_getElem?_getD]
  simp [List.getElem?_map, List.getElem?_range h]

theorem downsampleIdx_length (n m : Nat) : (downsampleIdx n m).length = m := by
  simp [downsampleIdx]

theorem downsampleIdx_getD (n m k : Nat) (hk : k < m) :
    (downsampleIdx n m).getD k 0 = k * (n - 1) / (m - 1) :=
  getD_map_range' _ _ _ _ hk

theorem downsampleIdx_le (n m : Nat) (hm : 2 ≤ m) :
    ∀ i ∈ downsampleIdx n m, i ≤ n - 1 := by
  intro i hi
  simp only [downsampleIdx, List.mem_map, List.mem_range] at hi
  obtain ⟨k, hk, rfl⟩ := hi
  calc k * (n - 1) / (m - 1) ≤ (m - 1) * (n - 1) / (m - 1) :=
        Nat.div_le_div_right (Nat.mul_le_mul_right _ (by omega))
    _ = n - 1 := Nat.mul_div_cancel_left _ (by omega)

theorem pick_color_cases (cb : String) (x y z t1 t2 t3 : List ℚ) (n : Nat) :
    (pick_color cb x y z t1 t2 t3 n).1 = t1 ∨ (pick_color cb x y z t1 t2 t3 n).1 = t2 ∨
      (pick_color cb x y z t1 t2 t3 n).1 = t3 ∨ (pick_color cb x y z t1 t2 t3 n).1 = x ∨
      (pick_color cb x y z t1 t2 t3 n).1 = y ∨ (pick_color cb x y z t1 t2 t3 n).1 = z ∨
      (pick_color cb x y z t1 t2 t3 n).1 = List.map (fun (i : Nat) => (i : ℚ)) (List.range n) := by
  unfold pick_color
  split_ifs <;> simp

theorem pick_color_length (cb : String) (x y z t1 t2 t3 : List ℚ) (n : Nat)
    (hx : x.length = n) (hy : y.length = n) (hz : z.length = n) (h1 : t1.length = n)
    (h2 : t2.length = n) (h3 : t3.length = n) :
    (pick_color cb x y z t1 t2 t3 n).1.length = n := by
  unfold pick_color
  split_ifs <;>
    simp only [hx, hy, hz, h1, h2, h3, List.length_map, List.length_range]

/-- C2 (amended): when `2 ≤ max_points < n` (and `n ≥ 5` so that
preparation succeeds), the output has exactly `max_points` entries per
sequence, taken from the trimmed sequences at the indices
`⌊k * (n - 1) / (max_points - 1)⌋` (truncation, not rounding to
nearest); index `0` and index `n - 1` are both selected, every selected
index is in range, and the axis, time and color sequences are all
downsampled by this same index list. -/

theorem make_plotly_3d_downsample (s1 s2 s3 : SeriesData) (use_ma : Bool)
    (max_points : Nat) (color_by : String)
    (h5 : 5 ≤ aligned_len s1 s2 s3 use_ma) (hm2 : 2 ≤ max_points)
    (hlt : max_points < aligned_len s1 s2 s3 use_ma) :
    ∃ v, make_plotly_3d_signals [s1, s2, s3] use_ma max_points color_by = Except.ok v ∧
      (downsampleIdx (aligned_len s1 s2 s3 use_ma) max_points).length = max_points ∧
      (downsampleIdx (aligned_len s1 s2 s3 use_ma) max_points).getD 0 0 = 0 ∧
      (downsampleIdx (aligned_len s1 s2 s3 use_ma) max_points).getD (max_points - 1) 0 =
        aligned_len s1 s2 s3 use_ma - 1 ∧
      (∀ i ∈ downsampleIdx (aligned_len s1 s2 s3 use_ma) max_points,
        i ≤ aligned_len s1 s2 s3 use_ma - 1) ∧
      v.x = (downsampleIdx (aligned_len s1 s2 s3 use_ma) max_points).map
        (fun i => ((if use_ma then s1.y_ma else s1.y).take
          (aligned_len s1 s2 s3 use_ma)).getD i 0) ∧
      v.y = (downsampleIdx (aligned_len s1 s2 s3 use_ma) max_points).map
        (fun i => ((if use_ma then s2.y_ma else s2.y).take
          (aligned_len s1 s2 s3 use_ma)).getD i 0) ∧
      v.z = (downsampleIdx (aligned_len s1 s2 s3 use_ma) max_points).map
        (fun i => ((if use_ma then s3.y_ma else s3.y).take
          (aligned_len s1 s2 s3 use_ma)).getD i 0) ∧
      v.x.length = max_points ∧ v.y.length = max_points ∧ v.z.length = max_points ∧
      v.color.length = max_points ∧
      (v.color = (downsampleIdx (aligned_len s1 s2 s3 use_ma) max_points).map
          (fun i => (s1.t.take (aligned_len s1 s2 s3 use_ma)).getD i 0) ∨
        v.color = (downsampleIdx (aligned_len s1 s2 s3 use_ma) max_points).map
          (fun i => (s2.t.take (aligned_len s1 s2 s3 use_ma)).getD i 0) ∨
        v.color = (downsampleIdx (aligned_len s1 s2 s3 use_ma) max_points).map
          (fun i => (s3.t.take (aligned_len s1 s2 s3 use_ma)).getD i 0) ∨
        v.color = v.x ∨ v.color = v.y ∨ v.color = v.z ∨
        v.color = List.map (fun (i : Nat) => (i : ℚ)) (List.range max_points)) := by
  have hn5 : ¬ aligned_len s1 s2 s3 use_ma < 5 := by omega
  have hcond : max_points ≠ 0 ∧ max_points < aligned_len s1 s2 s3 use_ma :=
    ⟨by omega, hlt⟩
  simp only [make_plotly_3d_signals]
  rw [if_neg hn5, if_pos hcond]
  refine ⟨_, rfl, downsampleIdx_length _ _, ?_, ?_, downsampleIdx_le _ _ hm2,
    rfl, rfl, rfl, by simp [downsampleIdx_length], by simp [downsampleIdx_length],
    by simp [downsampleIdx_length], ?_, ?_⟩
  · rw [downsampleIdx_getD _ _ _ (by omega)]
    simp
  · rw [downsampleIdx_getD _ _ _ (by omega)]
    exact Nat.mul_div_cancel_left _ (by omega)
  · exact pick_color_length _ _ _ _ _ _ _ _ (by simp [downsampleIdx_length])
      (by simp [downsampleIdx_length]) (by simp [downsampleIdx_length])
      (by simp [downsampleIdx_length]) (by simp [downsampleIdx_length])
      (by simp [downsampleIdx_length])
  · exact pick_color_cases _ _ _ _ _ _ _ _

/-- C2 counterexample: on aligned length `n = 8` with `max_points = 5`,
the `astype(int)` truncation in the code selects indices `[0, 1, 3, 5, 7]`
(x-axis values `[0, 10, 30, 50, 70]`), whereas rounding each linspace
position to the nearest index — what the claim asserts — selects
`[0, 2, 4, 5, 7]` (values `[0, 20, 40, 50, 70]`); the prepared x-axis
is NOT the round-to-nearest selection. -/

theorem make_plotly_3d_downsample_counterexample :
    downsampleIdx 8 5 = [0, 1, 3, 5, 7] ∧
    roundIdxSpec 8 5 = [0, 2, 4, 5, 7] ∧
    Except.map ViewTriple.x
        (make_plotly_3d_signals [sample_series_1, sample_series_2, sample_series_3]
          false 5 ("Row 1 time")) =
      Except.ok [0, 10, 30, 50, 70] ∧
    Except.map ViewTriple.x
        (make_plotly_3d_signals [sample_series_1, sample_series_2, sample_series_3]
          false 5 ("Row 1 time")) ≠
      Except.ok ((roundIdxSpec 8 5).map
        (fun i => ([0, 10, 20, 30, 40, 50, 60, 70] : List ℚ).getD i 0)) := by
  refine ⟨by decide, by decide, by decide, by decide⟩

/-- Concrete instance of C2 (amended) at the length-8 sample triple with
`max_points = 5` and color by row-1 time. -/

theorem make_plotly_3d_downsample_witness :
    (5 ≤ aligned_len sample_series_1 sample_series_2 sample_series_3 false ∧
      2 ≤ 5 ∧
      5 < aligned_len sample_series_1 sample_series_2 sample_series_3 false) ∧
    (∃ v, make_plotly_3d_signals [sample_series_1, sample_series_2, sample_series_3] false 5 ("Row 1 time") = Except.ok v ∧
      (downsampleIdx (aligned_len sample_series_1 sample_series_2 sample_series_3 false) 5).length = 5 ∧
      (downsampleIdx (aligned_len sample_series_1 sample_series_2 sample_series_3 false) 5).getD 0 0 = 0 ∧
      (downsampleIdx (aligned_len sample_series_1 sample_series_2 sample_series_3 false) 5).getD (5 - 1) 0 =
        aligned_len sample_series_1 sample_series_2 sample_series_3 false - 1 ∧
      (∀ i ∈ downsampleIdx (aligned_len sample_series_1 sample_series_2 sample_series_3 false) 5,
        i ≤ aligned_len sample_series_1 sample_series_2 sample_series_3 false - 1) ∧
      v.x = (downsampleIdx (aligned_len sample_series_1 sample_series_2 sample_series_3 false) 5).map
        (fun i => ((if false then sample_series_1.y_ma else sample_series_1.y).take
          (aligned_len sample_series_1 sample_series_2 sample_series_3 false)).getD i 0) ∧
      v.y = (downsampleIdx (aligned_len sample_series_1 sample_series_2 sample_series_3 false) 5).map
        (fun i => ((if false then sample_series_2.y_ma else sample_series_2.y).take
          (aligned_len sample_series_1 sample_series_2 sample_series_3 false)).getD i 0) ∧
      v.z = (downsampleIdx (aligned_len sample_series_1 sample_series_2 sample_series_3 false) 5).map
        (fun i => ((if false then sample_series_3.y_ma else sample_series_3.y).take
          (aligned_len sample_series_1 sample_series_2 sample_series_3 false)).getD i 0) ∧
      v.x.length = 5 ∧ v.y.length = 5 ∧ v.z.length = 5 ∧
      v.color.length = 5 ∧
      (v.color = (downsampleIdx (aligned_len sample_series_1 sample_series_2 sample_series_3 false) 5).map
          (fun i => (sample_series_1.t.take (aligned_len sample_series_1 sample_series_2 sample_series_3 false)).getD i 0) ∨
        v.color = (downsampleIdx (aligned_len sample_series_1 sample_series_2 sample_series_3 false) 5).map
          (fun i => (sample_series_2.t.take (aligned_len sample_series_1 sample_series_2 sample_series_3 false)).getD i 0) ∨
        v.color = (downsampleIdx (aligned_len sample_series_1 sample_series_2 sample_series_3 false) 5).map
          (fun i => (sample_series_3.t.take (aligned_len sample_series_1 sample_series_2 sample_series_3 false)).getD i 0) ∨
        v.color = v.x ∨ v.color = v.y ∨ v.color = v.z ∨
        v.color = List.map (fun (i : Nat) => (i : ℚ)) (List.range 5))) :=
  ⟨⟨by decide, by decide, by decide⟩,
    make_plotly_3d_downsample sample_series_1 sample_series_2 sample_series_3 false 5
      ("Row 1 time") (by decide) (by decide) (by decide)⟩

/-- C5: the spectral estimator never raises (it is a total function into
`Spectrum`), and each degenerate condition — fewer than 4 samples in
either input, no finite consecutive time difference, or a non-positive
median sampling interval — yields the empty spectrum as a valid result. -/

theorem fft_magnitude_degenerate (time : List (Option ℚ)) (signal : List ℚ)
    (h : time.length < 4 ∨ signal.length < 4 ∨ finiteDiffs time = [] ∨
      medianQ (finiteDiffs time) ≤ 0) :
    fft_magnitude time signal = ⟨[], []⟩ := by
  simp only [fft_magnitude]
  split_ifs with h1 h2 h3
  · rfl
  · rfl
  · rfl
  · exfalso
    rcases h with h | h | h | h
    · exact h1 (Or.inl h)
    · exact h1 (Or.inr h)
    · exact h2 (by simp [h])
    · exact h3 h

/-- Concrete instance of C5: four non-finite time stamps leave no finite
difference, so the spectrum is empty. -/

theorem fft_magnitude_degenerate_witness :
    (([none, none, none, none] : List (Option ℚ)).length < 4 ∨
      ([(0 : ℚ), 1, 2, 3] : List ℚ).length < 4 ∨
      finiteDiffs [none, none, none, none] = [] ∨
      medianQ (finiteDiffs [none, none, none, none]) ≤ 0) ∧
    fft_magnitude [none, none, none, none] [(0 : ℚ), 1, 2, 3] = ⟨[], []⟩ :=
  ⟨Or.inr (Or.inr (Or.inl (by decide))),
    fft_magnitude_degenerate [none, none, none, none] [(0 : ℚ), 1, 2, 3]
      (Or.inr (Or.inr (Or.inl (by decide))))⟩

/-- C6: on non-degenerate input, the spectrum has `n/2 + 1` frequency
and magnitude bins (`n` the signal length); frequency bin `k` is
`k / (n·dt)` with `dt` the median finite sampling interval, so the axis
starts at `0` and is strictly ascending; magnitude bin `k` is the
absolute value of the `k`-th one-sided DFT coefficient of the
mean-detrended signal divided by `n`, hence all magnitudes are
non-negative. -/

theorem fft_magnitude_nondegenerate (time : List (Option ℚ)) (signal : List ℚ)
    (h1 : 4 ≤ time.length) (h2 : 4 ≤ signal.length)
    (h3 : finiteDiffs time ≠ []) (h4 : 0 < medianQ (finiteDiffs time)) :
    (fft_magnitude time signal).freq.length = signal.length / 2 + 1 ∧
    (fft_magnitude time signal).mag.length = signal.length / 2 + 1 ∧
    (∀ k, k < signal.length / 2 + 1 →
      (fft_magnitude time signal).freq.getD k 0 =
        (k : ℚ) / ((signal.length : ℚ) * medianQ (finiteDiffs time))) ∧
    (fft_magnitude time signal).freq.getD 0 0 = 0 ∧
    (fft_magnitude time signal).freq.Pairwise (· < ·) ∧
    (∀ k, k < signal.length / 2 + 1 →
      (fft_magnitude time signal).mag.getD k 0 =
        Complex.abs (dftCoeff (signal.map (fun v => v - meanQ signal)) k) /
          (signal.length : ℝ)) ∧
    (∀ m ∈ (fft_magnitude time signal).mag, 0 ≤ m) := by
  have c1 : ¬(time.length < 4 ∨ signal.length < 4) := by push_neg; omega
  have c2 : ¬(finiteDiffs time).length = 0 := by
    simpa [List.length_eq_zero] using h3
  have c3 : ¬ medianQ (finiteDiffs time) ≤ 0 := not_le.mpr h4
  have e : fft_magnitude time signal =
      ⟨List.map (fun (k : Nat) => (k : ℚ) /
          ((signal.length : ℚ) * medianQ (finiteDiffs time)))
          (List.range (signal.length / 2 + 1)),
        List.map (fun (k : Nat) =>
            Complex.abs (dftCoeff (signal.map (fun v => v - meanQ signal)) k) /
              (signal.length : ℝ))
          (List.range (signal.length / 2 + 1))⟩ := by
    simp only [fft_magnitude]
    rw [if_neg c1, if_neg c2, if_neg c3]
  have hpos : (0 : ℚ) < (signal.length : ℚ) * medianQ (finiteDiffs time) :=
    mul_pos (by exact_mod_cast (by omega : 0 < signal.length)) h4
  refine ⟨?_, ?_, ?_, ?_, ?_, ?_, ?_⟩
  · rw [e]; simp
  · rw [e]; simp
  · intro k hk
    rw [e]
    exact getD_map_range' _ _ _ _ hk
  · rw [e]
    rw [getD_map_range' _ _ _ _ (by omega : 0 < signal.length / 2 + 1)]
    simp
  · rw [e]
    refine List.pairwise_map.mpr ?_
    refine List.Pairwise.imp ?_ (List.pairwise_lt_range _)
    intro a b hab
    exact (div_lt_div_iff_of_pos_right hpos).mpr (by exact_mod_cast hab)
  · intro k hk
    rw [e]
    exact getD_map_range' _ _ _ _ hk
  · rw [e]
    intro m hm
    simp only [List.mem_map] at hm
    obtain ⟨k, _, rfl⟩ := hm
    exact div_nonneg (Complex.abs.nonneg _) (Nat.cast_nonneg _)

/-- Concrete instance of C6 at unit-spaced time stamps `0,1,2,3` and
signal `0,1,2,3` (median interval 1). -/

theorem fft_magnitude_nondegenerate_witness :
    (4 ≤ ([some 0, some 1, some 2, some 3] : List (Option ℚ)).length ∧
      4 ≤ ([(0 : ℚ), 1, 2, 3] : List ℚ).length ∧
      finiteDiffs ([some 0, some 1, some 2, some 3] : List (Option ℚ)) ≠ [] ∧
      0 < medianQ (finiteDiffs ([some 0, some 1, some 2, some 3] : List (Option ℚ)))) ∧
    ((fft_magnitude ([some 0, some 1, some 2, some 3] : List (Option ℚ)) ([(0 : ℚ), 1, 2, 3] : List ℚ)).freq.length = ([(0 : ℚ), 1, 2, 3] : List ℚ).length / 2 + 1 ∧
    (fft_magnitude ([some 0, some 1, some 2, some 3] : List (Option ℚ)) ([(0 : ℚ), 1, 2, 3] : List ℚ)).mag.length = ([(0 : ℚ), 1, 2, 3] : List ℚ).length / 2 + 1 ∧
    (∀ k, k < ([(0 : ℚ), 1, 2, 3] : List ℚ).length / 2 + 1 →
      (fft_magnitude ([some 0, some 1, some 2, some 3] : List (Option ℚ)) ([(0 : ℚ), 1, 2, 3] : List ℚ)).freq.getD k 0 =
        (k : ℚ) / ((([(0 : ℚ), 1, 2, 3] : List ℚ).length : ℚ) * medianQ (finiteDiffs ([some 0, some 1, some 2, some 3] : List (Option ℚ))))) ∧
    (fft_magnitude ([some 0, some 1, some 2, some 3] : List (Option ℚ)) ([(0 : ℚ), 1, 2, 3] : List ℚ)).freq.getD 0 0 = 0 ∧
    (fft_magnitude ([some 0, some 1, some 2, some 3] : List (Option ℚ)) ([(0 : ℚ), 1, 2, 3] : List ℚ)).freq.Pairwise (· < ·) ∧
    (∀ k, k < ([(0 : ℚ), 1, 2, 3] : List ℚ).length / 2 + 1 →
      (fft_magnitude ([some 0, some 1, some 2, some 3] : List (Option ℚ)) ([(0 : ℚ), 1, 2, 3] : List ℚ)).mag.getD k 0 =
        Complex.abs (dftCoeff (([(0 : ℚ), 1, 2, 3] : List ℚ).map (fun v => v - meanQ ([(0 : ℚ), 1, 2, 3] : List ℚ))) k) /
          (([(0 : ℚ), 1, 2, 3] : List ℚ).length : ℝ)) ∧
    (∀ m ∈ (fft_magnitude ([some 0, some 1, some 2, some 3] : List (Option ℚ)) ([(0 : ℚ), 1, 2, 3] : List ℚ)).mag, 0 ≤ m)) :=
  ⟨⟨by decide, by decide, by simp [finiteDiffs, diffs, Option.map₂],
      by norm_num [medianQ, sortQ, insertSorted, finiteDiffs, diffs, Option.map₂, List.filterMap_cons]⟩,
    fft_magnitude_nondegenerate ([some 0, some 1, some 2, some 3] : List (Option ℚ))
      ([(0 : ℚ), 1, 2, 3] : List ℚ) (by decide) (by decide)
      (by simp [finiteDiffs, diffs, Option.map₂])
      (by norm_num [medianQ, sortQ, insertSorted, finiteDiffs, diffs, Option.map₂, List.filterMap_cons])⟩
